import Mathlib

/-!
Shallow embedding of the Spacedrive front-end excerpts:
the Account Panel (settings/client/account/index.tsx, `Component`),
the Hosted Locations Playground (same file, `HostedLocationsPlayground`),
and the Recent Items Card (overview/cards/RecentItems.tsx).
-/

namespace Spacedrive

/-- `User` type from account/index.tsx lines 11-16. -/
structure User where
  email : String
  id : String
  timejoined : Nat
  roles : List String
deriving DecidableEq, Repr

/-- A parsed JSON body from the `/api/user` endpoint: either JSON `null`,
or an object whose `.message` field (if any) and user-shaped fields the
component reads (`data.message`, `data as User`, later `userInfo.email`). -/
inductive Payload
  | jnull
  | jobj (message : Option String) (email : String) (id : String)
        (timejoined : Nat) (roles : List String)
deriving DecidableEq, Repr

/-- An HTTP response as seen by the effect in `Component`: a status code and
a parsed JSON body. The component code only ever reads the body. -/
structure HttpResponse where
  status : Nat
  body : Payload
deriving DecidableEq, Repr

/-- Whether an HTTP status code is a 2xx success code. -/
def is2xx (s : Nat) : Bool := decide (200 ≤ s) && decide (s < 300)

/-- The effect of account/index.tsx lines 23-39 on the `userInfo` state:
`data.message !== 'unauthorised'` stores the payload as a `User`, otherwise
stores `null`.  Accessing `.message` on a JSON `null` body throws, so the
state is left at its previous value `init`.  The response status is never
examined. -/
def processUserFetch (init : Option User) (resp : HttpResponse) : Option User :=
  match resp.body with
  | .jnull => init
  | .jobj message email id timejoined roles =>
      if message ≠ some "unauthorised" then
        some { email := email, id := id, timejoined := timejoined, roles := roles }
      else
        none

/-- The two views the Account Panel can show. -/
inductive AccountView
  | loggedOut
  | profile (email : String)
deriving DecidableEq, Repr

/-- The render branch of account/index.tsx lines 57-63: `userInfo === null`
shows the auth `Tabs`, otherwise the `Profile` with `userInfo.email`. -/
def renderAccount : Option User → AccountView
  | none => .loggedOut
  | some u => .profile u.email

/-- The Account Panel's view after the mount-time fetch resolves with `resp`:
`userInfo` starts at `null` and is updated by `processUserFetch`. -/
def accountViewAfterFetch (resp : HttpResponse) : AccountView :=
  renderAccount (processUserFetch none resp)

/-- `CloudLocation` as consumed by the playground: `location.id` and
`location.name` are the only fields read. -/
structure CloudLocation where
  id : String
  name : String
deriving DecidableEq, Repr

/-- The builder for the auto-filled destination path of
account/index.tsx line 100: the template string
`location/$\x7blocations.data[0].id\x7d/hello.txt`. -/
def autofillPath (l : CloudLocation) : String :=
  "location/" ++ l.id ++ "/hello.txt"

/-- The state the autofill effect of lines 98-102 ranges over: the `path`
state hook and the current `locations.data`. -/
structure PathState where
  path : String
  locs : List CloudLocation
deriving DecidableEq, Repr

/-- The effect body of lines 98-102: if `path === ''` and
`locations.data?.[0]` is present, set `path` to the first location's
`location/<id>/hello.txt`; otherwise leave the state alone. -/
def autofillEffect (st : PathState) : PathState :=
  match st.locs with
  | [] => st
  | l :: _ => if st.path = "" then { st with path := autofillPath l } else st

/-- Events that can change the effect's dependencies `[path, locations.data]`:
the user typing into the path input (line 179, `onInput` → `setPath`) or the
locations query delivering a new list. -/
inductive PathEvent
  | userEdit (s : String)
  | locsUpdate (ls : List CloudLocation)
deriving DecidableEq, Repr

/-- One step of the playground's path field: apply the event to the state,
then run the autofill effect (React re-runs the effect after any change to
`path` or `locations.data`). -/
def stepPath (st : PathState) (e : PathEvent) : PathState :=
  autofillEffect
    (match e with
     | .userEdit s => { st with path := s }
     | .locsUpdate ls => { st with locs := ls })

/-- The path state at mount: `useState('')`, query data not yet delivered. -/
def initPathState : PathState := { path := "", locs := [] }

/-- The path field after a sequence of events starting from mount. -/
def runPath (es : List PathEvent) : PathState :=
  es.foldl stepPath (autofillEffect initPathState)

/-- The `isLoading` flags of the three `useBridgeMutation` hooks of
account/index.tsx lines 74-96. -/
structure MutationFlags where
  createLoading : Bool
  removeLoading : Bool
  doTheThingLoading : Bool
deriving DecidableEq, Repr

/-- Line 104: `createLocation.isLoading || removeLocation.isLoading ||
doTheThing.isLoading`. -/
def isLoading (m : MutationFlags) : Bool :=
  m.createLoading || m.removeLoading || m.doTheThingLoading

/-- The `disabled` flags of the two buttons rendered per location row
(lines 148-168). -/
structure RowControls where
  deleteDisabled : Bool
  doTheThingDisabled : Bool
deriving DecidableEq, Repr

/-- The `disabled` flags of every mutating control the playground renders:
the name input (line 118), the Create Location button (line 128), per-row
Delete and Do-the-thing buttons (lines 152, 165), and the path input
(line 180). -/
structure PlaygroundControls where
  nameInputDisabled : Bool
  createDisabled : Bool
  rows : List RowControls
  pathInputDisabled : Bool
deriving DecidableEq, Repr

/-- The rendered controls: every `disabled` attribute in the JSX is the one
shared `isLoading` flag. -/
def renderControls (m : MutationFlags) (locs : List CloudLocation) :
    PlaygroundControls :=
  { nameInputDisabled := isLoading m
    createDisabled := isLoading m
    rows := locs.map fun _ =>
      { deleteDisabled := isLoading m, doTheThingDisabled := isLoading m }
    pathInputDisabled := isLoading m }

/-- All rendered controls carry the disabled flag `b`. -/
def allControlsFlag (b : Bool) (c : PlaygroundControls) : Bool :=
  (c.nameInputDisabled == b) && (c.createDisabled == b) &&
    (c.pathInputDisabled == b) &&
    c.rows.all fun r => (r.deleteDisabled == b) && (r.doTheThingDisabled == b)

/-- Requests the playground can issue through the bridge. -/
inductive Request
  | createLocation (name : String)
  | removeLocation (id : String)
  | testing (id : String) (path : String)
deriving DecidableEq, Repr

/-- The playground's text-input state: the `locationName` and `path` hooks
(lines 72-73). -/
structure PlaygroundState where
  locationName : String
  path : String
deriving DecidableEq, Repr

/-- The name input's `onInput` handler (line 116):
`setLocationName(e.currentTarget.value)`, verbatim, no trimming. -/
def nameInputEvent (st : PlaygroundState) (v : String) : PlaygroundState :=
  { st with locationName := v }

/-- The Create Location button's `onClick` handler (lines 124-127): return
without a request when `locationName === ''`, otherwise
`createLocation.mutate(locationName)`.  The handler itself changes no state. -/
def createButtonClick (st : PlaygroundState) : PlaygroundState × List Request :=
  if st.locationName = "" then (st, [])
  else (st, [.createLocation st.locationName])

/-- A row's Do-the-thing `onClick` handler (lines 159-164):
`doTheThing.mutate(\x7b id: location.id, path \x7d)` — the row's own id
paired with the single shared `path` state. -/
def doTheThingClick (st : PlaygroundState) (location : CloudLocation) :
    List Request :=
  [.testing location.id st.path]

/-- Observable commands issued by the mutation callbacks. -/
inductive Cmd
  | refetch
  | setLocName (s : String)
  | toastSuccess (m : String)
  | toastError (m : String)
deriving DecidableEq, Repr

/-- Outcome with which a mutation settles. -/
inductive MutationResult
  | success
  | failure (message : String)
deriving DecidableEq, Repr

/-- The `cloud.locations.create` callbacks (lines 74-81): `onSuccess` runs
`locations.refetch(); setLocationName('')`; no `onError` handler exists. -/
def createLocationCallbacks : MutationResult → List Cmd
  | .success => [.refetch, .setLocName ""]
  | .failure _ => []

/-- The `cloud.locations.testing` callbacks (lines 89-96): `onSuccess` shows
`toast.success('Uploaded file!')`, `onError(err)` shows
`toast.error(err.message)`. -/
def doTheThingCallbacks : MutationResult → List Cmd
  | .success => [.toastSuccess "Uploaded file!"]
  | .failure m => [.toastError m]

/-- Count the refetches in a command list. -/
def countRefetch : List Cmd → Nat
  | [] => 0
  | .refetch :: rest => countRefetch rest + 1
  | _ :: rest => countRefetch rest

/-- Apply commands to the playground state (refetch leaves the hooks alone). -/
def applyCmds (st : PlaygroundState) : List Cmd → PlaygroundState
  | [] => st
  | .setLocName s :: rest => applyCmds { st with locationName := s } rest
  | _ :: rest => applyCmds st rest

/-- Status of the `cloud.locations.list` query as read at lines 140-141. -/
inductive QueryStatus
  | loading
  | error
  | success
deriving DecidableEq, Repr

/-- The pieces the locations list region (lines 140-172) can put in the tree:
the `Loading!` div, the `Looks like you don't have any!` div, and the
container div mapping over `locations.data`. -/
inductive ListRegionPiece
  | loadingDiv
  | emptyDiv
  | populatedDiv (rows : List CloudLocation)
deriving DecidableEq, Repr

/-- The render of lines 140-172.  First expression:
`status === 'loading' ? <div>Loading!</div> : null`.  Second expression:
`status !== 'loading' && data?.length === 0` chooses the empty div, and its
ELSE branch — taken in particular while loading — renders the container div
over `locations.data` (which maps no rows when data is absent). -/
def renderListRegion (status : QueryStatus)
    (data : Option (List CloudLocation)) : List ListRegionPiece :=
  (if status = .loading then [.loadingDiv] else []) ++
    (if status ≠ .loading ∧ data = some [] then [.emptyDiv]
     else [.populatedDiv (data.getD [])])

/-- Does a piece belong to one of the three claimed list states? -/
def isListStatePiece : ListRegionPiece → Bool
  | .loadingDiv => true
  | .emptyDiv => true
  | .populatedDiv _ => true

/-- The two mutually-exclusive body pieces of the region: the empty div and
the populated container. -/
def isListBodyPiece : ListRegionPiece → Bool
  | .loadingDiv => false
  | .emptyDiv => true
  | .populatedDiv _ => true

/-- How many empty/populated body pieces a rendered region holds. -/
def countListBody (ps : List ListRegionPiece) : Nat :=
  (ps.filter isListBodyPiece).length

/-- Left-pad a numeral with zeros to width 2. -/
def pad2 (n : Nat) : String :=
  if n < 10 then "0" ++ toString n else toString n

/-- Left-pad a numeral with zeros to width 3. -/
def pad3 (n : Nat) : String :=
  if n < 10 then "00" ++ toString n
  else if n < 100 then "0" ++ toString n
  else toString n

/-- Left-pad a numeral with zeros to width 4. -/
def pad4 (n : Nat) : String :=
  if n < 10 then "000" ++ toString n
  else if n < 100 then "00" ++ toString n
  else if n < 1000 then "0" ++ toString n
  else toString n

/-- Civil date (year, month, day) from days since 1970-01-01. -/
def civilFromDays (z0 : Nat) : Nat × Nat × Nat :=
  let z := z0 + 719468
  let era := z / 146097
  let doe := z % 146097
  let yoe := (doe - doe / 1460 + doe / 36524 - doe / 146096) / 365
  let y := yoe + era * 400
  let doy := doe - (365 * yoe + yoe / 4 - yoe / 100)
  let mp := (5 * doy + 2) / 153
  let d := doy - (153 * mp + 2) / 5 + 1
  let m := if mp < 10 then mp + 3 else mp - 9
  (if m ≤ 2 then y + 1 else y, m, d)

/-- `new Date(ms).toISOString()` for a non-negative millisecond timestamp:
`YYYY-MM-DDTHH:mm:ss.sssZ`. -/
def dateToISO (ms : Nat) : String :=
  let msPart := ms % 1000
  let totalSec := ms / 1000
  let s := totalSec % 60
  let totalMin := totalSec / 60
  let mi := totalMin % 60
  let totalHr := totalMin / 60
  let h := totalHr % 24
  let days := totalHr / 24
  let ymd := civilFromDays days
  pad4 ymd.1 ++ "-" ++ pad2 ymd.2.1 ++ "-" ++ pad2 ymd.2.2 ++ "T" ++
    pad2 h ++ ":" ++ pad2 mi ++ ":" ++ pad2 s ++ "." ++ pad3 msPart ++ "Z"

/-- The `orderOnly` object of RecentItems.tsx line 11. -/
structure OrderOnly where
  field : String
  value : String
deriving DecidableEq, Repr

/-- The `orderAndPagination` object of RecentItems.tsx lines 10-12. -/
structure OrderAndPagination where
  orderOnly : OrderOnly
deriving DecidableEq, Repr

/-- The `dateAccessed` range filter of RecentItems.tsx line 13. -/
structure DateAccessedRange where
  fromBound : String
deriving DecidableEq, Repr

/-- The `object` filter of RecentItems.tsx line 13. -/
structure ObjectFilterBody where
  dateAccessed : DateAccessedRange
deriving DecidableEq, Repr

/-- One element of the `filters` array of RecentItems.tsx line 13. -/
structure SearchFilter where
  object : ObjectFilterBody
deriving DecidableEq, Repr

/-- The argument object of the `search.objects` query. -/
structure SearchObjectsArgs where
  take : Nat
  orderAndPagination : OrderAndPagination
  filters : List SearchFilter
deriving DecidableEq, Repr

/-- The query issued by `RecentItemsCard` (RecentItems.tsx lines 6-15):
`take: 6`, `orderOnly: \x7b field: 'dateAccessed', value: 'Desc' \x7d`,
`filters: [\x7b object: \x7b dateAccessed: \x7b from:
new Date(0).toISOString() \x7d \x7d \x7d]`. -/
def recentItemsQueryArgs : SearchObjectsArgs :=
  { take := 6
    orderAndPagination :=
      { orderOnly := { field := "dateAccessed", value := "Desc" } }
    filters := [{ object := { dateAccessed := { fromBound := dateToISO 0 } } }] }

end Spacedrive

namespace Spacedrive

/-- C1 counterexample: a non-2xx (500) response whose body lacks the
`unauthorised` marker does NOT yield the logged-out view — the code never
inspects the status, so the profile view is shown. -/
theorem C1_status_ignored_counterexample :
    is2xx 500 = false ∧
      accountViewAfterFetch ⟨500, .jobj none "a@b.c" "u1" 0 []⟩ =
        AccountView.profile "a@b.c" ∧
      accountViewAfterFetch ⟨500, .jobj none "a@b.c" "u1" 0 []⟩ ≠
        AccountView.loggedOut := by
  refine ⟨rfl, rfl, ?_⟩
  decide

/-- C1 (amended): a null body or a body carrying the `unauthorised` marker
yields the logged-out view; any other object body — regardless of the HTTP
status, which the code never examines — yields the profile view showing the
payload's email field. -/
theorem C1_account_view_amended (resp : HttpResponse) :
    (resp.body = .jnull → accountViewAfterFetch resp = .loggedOut) ∧
    (∀ email id tj roles,
      resp.body = .jobj (some "unauthorised") email id tj roles →
        accountViewAfterFetch resp = .loggedOut) ∧
    (∀ message email id tj roles,
      resp.body = .jobj message email id tj roles →
        message ≠ some "unauthorised" →
          accountViewAfterFetch resp = .profile email) := by
  refine ⟨?_, ?_, ?_⟩
  · intro h
    simp [accountViewAfterFetch, processUserFetch, h, renderAccount]
  · intro email id tj roles h
    simp [accountViewAfterFetch, processUserFetch, h, renderAccount]
  · intro message email id tj roles h hm
    simp [accountViewAfterFetch, processUserFetch, h, hm, renderAccount]

/-- Witness for C1_account_view_amended at concrete responses. -/
theorem C1_account_view_amended_witness :
    accountViewAfterFetch ⟨401, .jobj (some "unauthorised") "" "" 0 []⟩ =
        AccountView.loggedOut ∧
      accountViewAfterFetch ⟨200, .jobj none "a@b.c" "u1" 7 []⟩ =
        AccountView.profile "a@b.c" :=
  ⟨(C1_account_view_amended ⟨401, .jobj (some "unauthorised") "" "" 0 []⟩).2.1
      "" "" 0 [] rfl,
   (C1_account_view_amended ⟨200, .jobj none "a@b.c" "u1" 7 []⟩).2.2
      none "a@b.c" "u1" 7 [] rfl (by decide)⟩

/-- C2 counterexample: after the field was auto-filled once, a user edit that
clears the field is immediately overwritten by the autofill effect again — the
field is auto-populated a second time after a user edit, contradicting
"exactly once" and "once the user has edited the field, it is never
overwritten by the auto-fill again". -/
theorem C2_autofill_counterexample :
    (runPath [.locsUpdate [⟨"1", "loc"⟩]]).path = "location/1/hello.txt" ∧
      (runPath [.locsUpdate [⟨"1", "loc"⟩], .userEdit ""]).path
        = "location/1/hello.txt" ∧
      "location/1/hello.txt" ≠ "" := by
  refine ⟨rfl, rfl, ?_⟩
  decide

/-- C2 (amended): the destination-path field is auto-populated to
`location/<id>/hello.txt` from the first location whenever the field is empty
and at least one location exists — including again after the user clears it —
and a user edit to any non-empty value is kept verbatim, never overwritten. -/
theorem C2_autofill_amended :
    (∀ st s, s ≠ "" → (stepPath st (.userEdit s)).path = s) ∧
    (∀ st l rest, st.path = "" →
      (stepPath st (.locsUpdate (l :: rest))).path = autofillPath l) ∧
    (∀ st l rest, st.locs = l :: rest →
      (stepPath st (.userEdit "")).path = autofillPath l) := by
  refine ⟨?_, ?_, ?_⟩
  · intro st s hs
    cases h : st.locs with
    | nil => simp [stepPath, autofillEffect, h]
    | cons l rest => simp [stepPath, autofillEffect, h, hs]
  · intro st l rest hp
    simp [stepPath, autofillEffect, hp]
  · intro st l rest hl
    simp [stepPath, autofillEffect, hl]

/-- Witness for C2_autofill_amended at concrete states. -/
theorem C2_autofill_amended_witness :
    (stepPath ⟨"x", []⟩ (.userEdit "mine")).path = "mine" ∧
      (stepPath ⟨"", []⟩ (.locsUpdate [⟨"7", "n"⟩])).path
        = "location/7/hello.txt" ∧
      (stepPath ⟨"anything", [⟨"7", "n"⟩]⟩ (.userEdit "")).path
        = "location/7/hello.txt" :=
  ⟨C2_autofill_amended.1 ⟨"x", []⟩ "mine" (by decide),
   C2_autofill_amended.2.1 ⟨"", []⟩ ⟨"7", "n"⟩ [] rfl,
   C2_autofill_amended.2.2 ⟨"anything", [⟨"7", "n"⟩]⟩ ⟨"7", "n"⟩ [] rfl⟩

/-- C3: while any of the three mutations is in flight every mutating control
(name input, Create button, each row's Delete and Do-the-thing buttons, path
input) is rendered disabled, and once none is in flight every one of them is
rendered enabled. -/
theorem C3_disablement (m : MutationFlags) (locs : List CloudLocation) :
    (isLoading m = true → allControlsFlag true (renderControls m locs) = true) ∧
    (isLoading m = false →
      allControlsFlag false (renderControls m locs) = true) := by
  constructor <;> intro h <;>
    simp [allControlsFlag, renderControls, h, List.all_eq_true, List.mem_map]

/-- Witness for C3_disablement with one mutation pending and with none. -/
theorem C3_disablement_witness :
    allControlsFlag true
        (renderControls ⟨true, false, false⟩ [⟨"1", "a"⟩, ⟨"2", "b"⟩]) = true ∧
      allControlsFlag false
        (renderControls ⟨false, false, false⟩ [⟨"1", "a"⟩, ⟨"2", "b"⟩]) = true :=
  ⟨(C3_disablement ⟨true, false, false⟩ [⟨"1", "a"⟩, ⟨"2", "b"⟩]).1 rfl,
   (C3_disablement ⟨false, false, false⟩ [⟨"1", "a"⟩, ⟨"2", "b"⟩]).2 rfl⟩

/-- C4: the create mutation's success callback resets the name input to the
empty string and triggers exactly one refetch of the locations list. -/
theorem C4_create_success_resets_and_refetches (st : PlaygroundState) :
    countRefetch (createLocationCallbacks .success) = 1 ∧
      (applyCmds st (createLocationCallbacks .success)).locationName = "" :=
  ⟨rfl, rfl⟩

/-- C5: clicking Create Location while the name input holds the empty string
issues no request and leaves the state (so also the input value) unchanged. -/
theorem C5_empty_name_no_request (st : PlaygroundState)
    (h : st.locationName = "") : createButtonClick st = (st, []) := by
  simp [createButtonClick, h]

/-- Witness for C5_empty_name_no_request at a concrete state. -/
theorem C5_empty_name_no_request_witness :
    createButtonClick ⟨"", "p"⟩ = (⟨"", "p"⟩, []) :=
  C5_empty_name_no_request ⟨"", "p"⟩ rfl

/-- C6: the Recent Items Card's search query takes exactly 6 items, orders
descending by `dateAccessed`, and filters `dateAccessed` from the epoch start
(`new Date(0).toISOString()`). -/
theorem C6_recent_items_query :
    recentItemsQueryArgs.take = 6 ∧
      recentItemsQueryArgs.orderAndPagination.orderOnly =
        { field := "dateAccessed", value := "Desc" } ∧
      recentItemsQueryArgs.filters =
        [{ object := { dateAccessed :=
            { fromBound := "1970-01-01T00:00:00.000Z" } } }] := by
  refine ⟨rfl, rfl, ?_⟩
  decide

/-- C7 counterexample: while the locations query is loading, the region
renders BOTH the loading div and the (empty) populated container — the ELSE
branch of the empty-check ternary — so more than one of the three states is
in the tree at once. -/
theorem C7_loading_counterexample :
    renderListRegion .loading none = [.loadingDiv, .populatedDiv []] ∧
      ((renderListRegion .loading none).filter isListStatePiece).length ≠ 1 := by
  constructor <;> decide

/-- C7 (amended): exactly one of the empty div and the populated container is
rendered in every state, and the loading div is rendered precisely while the
query is loading — so during loading two pieces coexist. -/
theorem C7_region_amended (status : QueryStatus)
    (data : Option (List CloudLocation)) :
    countListBody (renderListRegion status data) = 1 ∧
      (ListRegionPiece.loadingDiv ∈ renderListRegion status data ↔
        status = .loading) := by
  cases status <;> rcases data with _ | (_ | ⟨l, rest⟩) <;>
    simp [countListBody, renderListRegion, isListBodyPiece, List.filter]

/-- Witness for C7_region_amended at a concrete settled, populated state. -/
theorem C7_region_amended_witness :
    countListBody (renderListRegion .success (some [⟨"1", "a"⟩])) = 1 ∧
      (ListRegionPiece.loadingDiv ∈
          renderListRegion .success (some [⟨"1", "a"⟩]) ↔
        QueryStatus.success = .loading) :=
  C7_region_amended .success (some [⟨"1", "a"⟩])

/-- C8: the diagnostic mutation shows a success toast on success and, on
failure, an error toast whose text is exactly the failure's message. -/
theorem C8_diagnostic_toasts :
    doTheThingCallbacks .success = [.toastSuccess "Uploaded file!"] ∧
      ∀ m, doTheThingCallbacks (.failure m) = [.toastError m] :=
  ⟨rfl, fun _ => rfl⟩

/-- C9: the empty-name guard is exact string equality, so any non-empty name
— whitespace-only included — typed into the input is sent to the create
mutation verbatim, with no trimming. -/
theorem C9_guard_is_exact_equality (st : PlaygroundState) (s : String)
    (h : s ≠ "") :
    (createButtonClick (nameInputEvent st s)).2 = [.createLocation s] ∧
      (createButtonClick (nameInputEvent st s)).1.locationName = s := by
  simp [createButtonClick, nameInputEvent, h]

/-- Witness for C9_guard_is_exact_equality at a single-space name. -/
theorem C9_guard_is_exact_equality_witness :
    (createButtonClick (nameInputEvent ⟨"", ""⟩ " ")).2 =
        [Request.createLocation " "] ∧
      (createButtonClick (nameInputEvent ⟨"", ""⟩ " ")).1.locationName = " " :=
  C9_guard_is_exact_equality ⟨"", ""⟩ " " (by decide)

/-- C10: every row's Do-the-thing click pairs that row's location id with the
single shared path field's current value — the path component is identical
across all rows. -/
theorem C10_shared_path (st : PlaygroundState) (l1 l2 : CloudLocation) :
    doTheThingClick st l1 = [.testing l1.id st.path] ∧
      doTheThingClick st l2 = [.testing l2.id st.path] :=
  ⟨rfl, rfl⟩

end Spacedrive
